import Mathlib

/-!
Verification of the opentui renderer control layer (`packages/core/src/renderer.ts`
and companion modules) against its natural-language specification.

The definitions below are a shallow embedding of the TypeScript source:
pure functions become Lean functions, the renderer's mutable fields become a
`RendererState` record threaded explicitly, JS numbers used as millisecond
timestamps become `ℚ`, and code that can throw returns `Except String _`.
Each definition's doc comment names the source location it was translated from.
-/

namespace OpenTUI

/-- Renderer lifecycle control states, from `enum RendererControlState`
(renderer.ts lines 261–268). -/
inductive RendererControlState where
  | IDLE
  | AUTO_STARTED
  | EXPLICIT_STARTED
  | EXPLICIT_PAUSED
  | EXPLICIT_SUSPENDED
  | EXPLICIT_STOPPED
  deriving DecidableEq, Repr

/-- The renderer's lifecycle/scheduling fields (renderer.ts lines 279–350),
restricted to those the control-flow claims depend on, each with its
initializer from the class declaration.  `scheduledDelay` records the delay of
the anonymous `setTimeout`/`process.nextTick` activation that `requestRender`
arms together with `updateScheduled` (the source keeps no handle for it, only
the flag).  `publishCount`, `startLoopCount` and
`resumeRenderRequests` are ghost instrumentation counters: the embedded code
only ever increments them, so they record, respectively, calls of
`this.lib.render` (the publish to the frame-buffer engine), calls of
`startRenderLoop`, and `resume()` taking its `requestRender` branch. -/
structure RendererState where
  controlState : RendererControlState := .IDLE
  previousControlState : RendererControlState := .IDLE
  liveRequestCounter : Nat := 0
  isRunning : Bool := false
  isDestroyed : Bool := false
  rendering : Bool := false
  renderingNative : Bool := false
  renderTimeout : Option ℚ := none
  updateScheduled : Bool := false
  scheduledDelay : Option ℚ := none
  immediateRerenderRequested : Bool := false
  lastTime : ℚ := 0
  targetFrameTime : ℚ := ⟨100, 3, by norm_num, by norm_num⟩
  minTargetFrameTime : ℚ := ⟨50, 3, by norm_num, by norm_num⟩
  frameCount : Nat := 0
  useMouse : Bool := true
  suspendedMouseEnabled : Bool := false
  stdinAttached : Bool := true
  publishCount : Nat := 0
  startLoopCount : Nat := 0
  resumeRenderRequests : Nat := 0
  deriving DecidableEq, Repr

/-- The renderer state right after construction and `setupTerminal`/`setupInput`
(all class-field initializers, with the stdin data listener attached).  The
frame intervals are the source's `1000 / this.targetFps` and
`1000 / this.maxFps` with the defaults `targetFps = 30`, `maxFps = 60`
(renderer.ts 283–284, 311–312), stored as pre-reduced rational literals (see
`initState_targetFrameTime`/`initState_minTargetFrameTime`). -/
def initState : RendererState := {}

namespace RendererState

/-- `internalStart` (renderer.ts 1445–1455): if not running and not destroyed,
set `_isRunning` and kick off the render loop via `startRenderLoop` (the loop
iterations themselves are modelled by the explicit `loop` step below; the ghost
counter `startLoopCount` records the kick-off).  The memory-snapshot timer is
out of scope. -/
def internalStart (st : RendererState) : RendererState :=
  if st.isRunning = false ∧ st.isDestroyed = false then
    { st with isRunning := true, startLoopCount := st.startLoopCount + 1 }
  else st

/-- `internalPause` (renderer.ts 1516–1518): unconditionally clears
`_isRunning`. -/
def internalPause (st : RendererState) : RendererState :=
  { st with isRunning := false }

/-- `internalStop` (renderer.ts 1525–1545): if running and not destroyed,
clear `_isRunning` and cancel the pending loop timer. -/
def internalStop (st : RendererState) : RendererState :=
  if st.isRunning = true ∧ st.isDestroyed = false then
    { st with isRunning := false, renderTimeout := none }
  else st

/-- `requestLive` (renderer.ts 1418–1425): increment the live-request counter;
if the control state is `IDLE` and the counter is positive, move to
`AUTO_STARTED` and start. -/
def requestLive (st : RendererState) : RendererState :=
  let st := { st with liveRequestCounter := st.liveRequestCounter + 1 }
  if st.controlState = .IDLE ∧ 0 < st.liveRequestCounter then
    internalStart { st with controlState := .AUTO_STARTED }
  else st

/-- `dropLive` (renderer.ts 1427–1434): decrement the counter, clamped at 0
(`Math.max(0, counter - 1)`, which is `Nat` subtraction); if the control state
is `AUTO_STARTED` and the counter reached 0, move to `IDLE` and pause. -/
def dropLive (st : RendererState) : RendererState :=
  let st := { st with liveRequestCounter := st.liveRequestCounter - 1 }
  if st.controlState = .AUTO_STARTED ∧ st.liveRequestCounter = 0 then
    internalPause { st with controlState := .IDLE }
  else st

/-- `start` (renderer.ts 1436–1439). -/
def start (st : RendererState) : RendererState :=
  internalStart { st with controlState := .EXPLICIT_STARTED }

/-- `auto` (renderer.ts 1441–1443): reclassify the current running status. -/
def auto (st : RendererState) : RendererState :=
  { st with controlState := if st.isRunning then .AUTO_STARTED else .IDLE }

/-- `pause` (renderer.ts 1457–1460). -/
def pause (st : RendererState) : RendererState :=
  internalPause { st with controlState := .EXPLICIT_PAUSED }

/-- `stop` (renderer.ts 1520–1523). -/
def stop (st : RendererState) : RendererState :=
  internalStop { st with controlState := .EXPLICIT_STOPPED }

/-- `suspend` (renderer.ts 1462–1481): snapshot the current control state in
`_previousControlState`, move to `EXPLICIT_SUSPENDED`, pause, remember whether
the mouse was enabled, disable the mouse (`disableMouse`, renderer.ts 903–907,
sets `_useMouse = false`), and detach the stdin data listener.  The raw-mode
and native-library calls are out-of-scope terminal I/O. -/
def suspend (st : RendererState) : RendererState :=
  let st1 := internalPause
    { st with previousControlState := st.controlState,
              controlState := .EXPLICIT_SUSPENDED }
  { st1 with suspendedMouseEnabled := st.useMouse,
             useMouse := false,
             stdinAttached := false }

/-- `requestRender` (renderer.ts 650–679): no-op while `EXPLICIT_SUSPENDED`;
no-op while `_isRunning`; while a frame is rendering, set the
immediate-rerender flag; otherwise, if nothing is scheduled yet, arm exactly
one activation after `Math.max(minTargetFrameTime - elapsed, 0)` (a
`process.nextTick` when the delay is 0, a `setTimeout` otherwise — both are
one pending activation, recorded in `updateScheduled`/`scheduledDelay`). -/
def requestRender (st : RendererState) (now : ℚ) : RendererState :=
  if st.controlState = .EXPLICIT_SUSPENDED then st
  else if st.isRunning = true then st
  else if st.rendering = true then { st with immediateRerenderRequested := true }
  else if st.updateScheduled = false ∧ st.renderTimeout = none then
    { st with updateScheduled := true,
              scheduledDelay := some (max (st.minTargetFrameTime - (now - st.lastTime)) 0) }
  else st

/-- `resume` (renderer.ts 1483–1514): restore raw mode, re-attach the stdin
listener (the source defers the re-attach one tick and discards input buffered
while suspended; the single-threaded embedding collapses that deferral),
re-enable the mouse if it was enabled before suspension, restore the
snapshotted control state, then either restart the loop (snapshot was
`AUTO_STARTED` or `EXPLICIT_STARTED`) or request a single render.  The ghost
counter `resumeRenderRequests` records the second branch. -/
def resume (st : RendererState) (now : ℚ) : RendererState :=
  let st1 := { st with stdinAttached := true }
  let st2 := if st1.suspendedMouseEnabled then { st1 with useMouse := true } else st1
  let st3 := { st2 with controlState := st2.previousControlState }
  if st3.previousControlState = .AUTO_STARTED ∨ st3.previousControlState = .EXPLICIT_STARTED then
    internalStart st3
  else
    requestRender { st3 with resumeRenderRequests := st3.resumeRenderRequests + 1 } now

/-- The guard-free synchronous prefix of one render-loop iteration
(renderer.ts 1627–1674): clear the loop timer, mark `rendering`, take the
frame timestamp and bump the frame counter.  Queued one-shot animation
callbacks and the per-frame callbacks (whose exceptions are caught and logged)
are collaborator code run here in the source; their effects on the renderer's
own control fields are nil in the scenarios the claims quantify over, and the
FPS rolling counters are elided. -/
def loopBegin (st : RendererState) (now : ℚ) : RendererState :=
  { st with renderTimeout := none, rendering := true,
            lastTime := now, frameCount := st.frameCount + 1 }

/-- `renderNative` (renderer.ts 1717–1735): throws synchronously if entered
while `renderingNative` is already set, otherwise publishes the back buffer
through the frame-buffer engine (`this.lib.render`, counted by the ghost
`publishCount`) and flushes images; `renderingNative` is set for the duration
and cleared before returning. -/
def renderNative (st : RendererState) : Except String RendererState :=
  if st.renderingNative = true then .error "Rendering called concurrently"
  else .ok { st with publishCount := st.publishCount + 1 }

/-- The tail of one render-loop iteration (renderer.ts 1682–1709): publish via
`renderNative`, then — if still running or an immediate rerender was requested
— arm the next iteration after `Math.max(1, targetFrameTime - ⌊frameTime⌋)`
(the faster `minTargetFrameTime` when an immediate rerender was requested),
otherwise clear the timer; finally clear `rendering`. -/
def loopFinish (st : RendererState) (frameTime : ℚ) : Except String RendererState :=
  if st.isDestroyed = false then
    match renderNative st with
    | .error e => .error e
    | .ok st1 =>
      if st1.isRunning = true ∨ st1.immediateRerenderRequested = true then
        let tft := if st1.immediateRerenderRequested then st1.minTargetFrameTime
                   else st1.targetFrameTime
        .ok { st1 with immediateRerenderRequested := false,
                       renderTimeout := some (max 1 (tft - ((⌊frameTime⌋ : ℤ) : ℚ))),
                       rendering := false }
      else .ok { st1 with renderTimeout := none, rendering := false }
  else .ok { st with rendering := false }

/-- One full invocation of `loop` (renderer.ts 1625–1710): the re-entry guard
`if (this.rendering || this._isDestroyed) return` followed by the iteration
body.  `now` is the entry timestamp and `frameTime` the measured duration of
the iteration's work. -/
def loop (st : RendererState) (now frameTime : ℚ) : Except String RendererState :=
  if st.rendering = true ∨ st.isDestroyed = true then .ok st
  else loopFinish (loopBegin st now) frameTime

/-- `activateFrame` (renderer.ts 681–685): run `loop`, then clear the
`updateScheduled` flag (and with it the armed activation). -/
def activateFrame (st : RendererState) (now frameTime : ℚ) : Except String RendererState :=
  (loop st now frameTime).map fun st1 =>
    { st1 with updateScheduled := false, scheduledDelay := none }

end RendererState

/-- The four explicit control states (spec §3: `EXPLICIT_*`). -/
def isExplicitState (s : RendererControlState) : Prop :=
  s = .EXPLICIT_STARTED ∨ s = .EXPLICIT_PAUSED ∨
  s = .EXPLICIT_SUSPENDED ∨ s = .EXPLICIT_STOPPED

/-- Consistency of the live-request counter with the auto-managed control
states: idle means no outstanding live requests, auto-started means at least
one.  This holds whenever only `requestLive`/`dropLive` have driven the
auto transitions (it is the invariant those two operations preserve), but it
is not an invariant of the full public API (see the counterexample for C1). -/
def liveConsistent (st : RendererState) : Prop :=
  (st.controlState = .IDLE → st.liveRequestCounter = 0) ∧
  (st.controlState = .AUTO_STARTED → 0 < st.liveRequestCounter)

/-- A renderer state in the middle of a frame of an explicitly started loop:
`start()` has run and the current `loop` iteration has passed its guard and is
now at one of its `await` suspension points (`rendering = true`).  This is the
state in which a per-frame callback runs. -/
def midFrameState : RendererState :=
  RendererState.loopBegin (RendererState.start initState) 0

/-! ## Inline-image wire encodings (`packages/core/src/graphics/protocol.ts`) -/

/-- The RFC 4648 base64 alphabet, as used by `Buffer.toString("base64")`. -/
def b64Alphabet : List Char :=
  "ABCDEFGHIJKLMNOPQRSTUVWXYZabcdefghijklmnopqrstuvwxyz0123456789+/".toList

/-- The base64 digit for a 6-bit value. -/
def b64Char (n : Nat) : Char := b64Alphabet.getD n 'A'

/-- RFC 4648 base64 with padding of a byte list — the behaviour of
`Buffer.toString("base64")` (an external runtime primitive, embedded here by
its standard definition); bytes are taken mod 256. -/
def base64Encode : List Nat → String
  | [] => ""
  | [a] =>
    let n := a % 256
    String.mk [b64Char (n / 4), b64Char (n % 4 * 16), '=', '=']
  | [a, b] =>
    let x := a % 256 * 256 + b % 256
    String.mk [b64Char (x / 1024), b64Char (x / 16 % 64), b64Char (x % 16 * 4), '=']
  | a :: b :: c :: rest =>
    let x := a % 256 * 65536 + b % 256 * 256 + c % 256
    String.mk [b64Char (x / 262144), b64Char (x / 4096 % 64), b64Char (x / 64 % 64),
      b64Char (x % 64)] ++ base64Encode rest

/-- `encodeItermImage` (graphics/protocol.ts 29–32), the iTerm2 inline-image
payload the renderer writes: note the source emits `preserveAspectRatio=1`. -/
def encodeItermImage (image : List Nat) (widthPx heightPx : Nat) : String :=
  "\x1b]1337;File=inline=1;width=" ++ toString widthPx ++ "px;height=" ++
    toString heightPx ++ "px;preserveAspectRatio=1:" ++ base64Encode image ++ "\x07"

/-- The iTerm2 payload prescribed by the spec (§6) and by the repository's own
test (`renderer.images.test.ts` line 122 expects `preserveAspectRatio=0:`) and
by the documented variant of `encodeItermImage` in `src/unnamed/part_002`:
identical framing with `preserveAspectRatio=0`. -/
def encodeItermImageSpec (image : List Nat) (widthPx heightPx : Nat) : String :=
  "\x1b]1337;File=inline=1;width=" ++ toString widthPx ++ "px;height=" ++
    toString heightPx ++ "px;preserveAspectRatio=0:" ++ base64Encode image ++ "\x07"

/-- `encodeKittyImage` (graphics/protocol.ts 34–37). -/
def encodeKittyImage (id : Nat) (image : List Nat) (widthPx heightPx : Nat) : String :=
  "\x1b_Gf=100,a=T,s=" ++ toString widthPx ++ ",v=" ++ toString heightPx ++
    ",i=" ++ toString id ++ ";" ++ base64Encode image ++ "\x1b\\"

/-- `encodeKittyDelete` (graphics/protocol.ts 39–41). -/
def encodeKittyDelete (id : Nat) : String :=
  "\x1b_Ga=d,d=0,i=" ++ toString id ++ "\x1b\\"

/-! ## The per-image step of `flushImages` (renderer.ts 1749–1840), kitty
protocol -/

/-- Pixels-per-cell metrics (`getCellMetrics`, renderer.ts 1737–1747). -/
structure CellMetrics where
  pxPerCellX : ℚ
  pxPerCellY : ℚ
  deriving DecidableEq, Repr

/-- One entry of `this.imageCache` (renderer.ts 397–411). -/
structure ImageCacheEntry where
  srcKey : String
  x : Int
  y : Int
  width : Nat
  height : Nat
  fit : String
  pixelWidth : Nat
  pixelHeight : Nat
  data : List Nat
  kittyId : Option Nat
  deriving DecidableEq, Repr

/-- The fields of a visible `ImageRenderable` with a source, as read by
`flushImages`: `srcKey` is the string source or the base64 digest of a byte
source, `width`/`height` the layout cells, `fit` the fit mode,
the overrides the renderable's explicit `pixelWidth`/`pixelHeight`, and
`x`/`y` its position. -/
structure ImageNode where
  srcKey : String
  width : Nat
  height : Nat
  fit : String
  pixelWidthOverride : Option Nat
  pixelHeightOverride : Option Nat
  x : Int
  y : Int
  deriving DecidableEq, Repr

/-- Resolved pixel width (renderer.ts 1766–1768):
`renderable.pixelWidth ?? (metrics ? max(1, round(width · pxPerCellX)) :
max(1, width))`, with `width = max(renderable.width, 1)`. -/
def kittyPixelWidth (metrics : Option CellMetrics) (node : ImageNode) : Nat :=
  node.pixelWidthOverride.getD
    (match metrics with
     | some m => max 1 (round ((max node.width 1 : ℚ) * m.pxPerCellX)).toNat
     | none => max 1 (max node.width 1))

/-- Resolved pixel height (renderer.ts 1769–1771). -/
def kittyPixelHeight (metrics : Option CellMetrics) (node : ImageNode) : Nat :=
  node.pixelHeightOverride.getD
    (match metrics with
     | some m => max 1 (round ((max node.height 1 : ℚ) * m.pxPerCellY)).toNat
     | none => max 1 (max node.height 1))

/-- `changedImage` (renderer.ts 1772–1779): the cached entry is missing or
differs in source identity, layout size, fit mode, or resolved pixel size.
(The source's `!data` disjunct is equivalent to the entry being absent: a
cached `Buffer`, even empty, is truthy in JS.) -/
def kittyContentChanged (prev : Option ImageCacheEntry) (metrics : Option CellMetrics)
    (node : ImageNode) : Bool :=
  match prev with
  | none => true
  | some p => decide (¬(p.srcKey = node.srcKey ∧ p.width = max node.width 1 ∧
      p.height = max node.height 1 ∧ p.fit = node.fit ∧
      p.pixelWidth = kittyPixelWidth metrics node ∧
      p.pixelHeight = kittyPixelHeight metrics node))

/-- `positionChanged` (renderer.ts 1790). -/
def kittyPositionChanged (prev : Option ImageCacheEntry) (node : ImageNode) : Bool :=
  match prev with
  | none => true
  | some p => decide (¬(p.x = node.x ∧ p.y = node.y))

/-- The cursor-positioning sequence preceding an image payload
(renderer.ts 1813–1822), with the centering offsets computed from the cell
metrics (`Math.round` is `round`, `Math.max(0, ·)` is `max 0`). -/
def kittyMoveSeq (metrics : Option CellMetrics) (node : ImageNode) : String :=
  let pixelWidth := kittyPixelWidth metrics node
  let pixelHeight := kittyPixelHeight metrics node
  let offs : Int × Int :=
    match metrics with
    | some m =>
      (max 0 (round (((max node.width 1 : ℚ) * m.pxPerCellX - (pixelWidth : ℚ))
          / (2 * m.pxPerCellX))),
       max 0 (round (((max node.height 1 : ℚ) * m.pxPerCellY - (pixelHeight : ℚ))
          / (2 * m.pxPerCellY))))
    | none => (0, 0)
  "\x1b[" ++ toString (node.y + offs.2 + 1) ++ ";" ++ toString (node.x + offs.1 + 1) ++ "H"

/-- One per-image iteration of the kitty-protocol branch of `flushImages`
(renderer.ts 1756–1827).  `prev` is the node's cached entry, `loaded` the
result of the `loadImage` collaborator call used when the content changed
(`none` models a decode failure), `nextKittyId` the allocator state
(`this.kittyImageId`).  Returns the sequences written out in order, the cache
entry stored for this node this frame (`none` when the node was skipped), and
the next fresh handle id.  The pre-loop skips for an invisible or source-less
node (renderer.ts 1757) are the caller's concern. -/
def kittyFlushStep (metrics : Option CellMetrics) (prev : Option ImageCacheEntry)
    (node : ImageNode) (loaded : Option (List Nat)) (nextKittyId : Nat) :
    List String × Option ImageCacheEntry × Nat :=
  if (node.pixelWidthOverride.isSome ∨ node.pixelHeightOverride.isSome) ∧ metrics = none then
    ([], none, nextKittyId)
  else
    let pixelWidth := kittyPixelWidth metrics node
    let pixelHeight := kittyPixelHeight metrics node
    let changedImage := kittyContentChanged prev metrics node
    let dataQ : Option (List Nat) :=
      if changedImage then loaded else prev.map (fun p => p.data)
    match dataQ with
    | none => ([], none, nextKittyId)
    | some data =>
      let idAlloc : Option Nat × Nat :=
        match prev with
        | some p =>
          match p.kittyId with
          | some i => (some i, nextKittyId)
          | none => (some nextKittyId, nextKittyId + 1)
        | none => (some nextKittyId, nextKittyId + 1)
      let kittyId := idAlloc.1
      let nid := idAlloc.2
      let needsSend := changedImage || kittyPositionChanged prev node
      let deleteWrites : List String :=
        match prev with
        | some p =>
          match p.kittyId with
          | some i => if needsSend then [encodeKittyDelete i] else []
          | none => []
        | none => []
      let entry : ImageCacheEntry :=
        { srcKey := node.srcKey, x := node.x, y := node.y,
          width := max node.width 1, height := max node.height 1,
          fit := node.fit, pixelWidth := pixelWidth, pixelHeight := pixelHeight,
          data := data, kittyId := kittyId }
      if needsSend then
        (deleteWrites ++
          [kittyMoveSeq metrics node
            ++ encodeKittyImage (kittyId.getD nid) data pixelWidth pixelHeight],
         some entry, nid)
      else ([], some entry, nid)

/-! ## Capability-response recognition (`src/unnamed/part_000` lines 212–296)

The source tests each response family with an unanchored JS regex
(`/…/.test(sequence)`).  Each pattern is embedded as a decidable matcher on
`List Char`: `searchB` tries every start position (the unanchored search), and
each per-position matcher implements the pattern's backtracking semantics —
for these patterns greedy matching coincides with backtracking, because
shortening a `\d+` or dropping a `(?:;\d+)` group always leaves the next
required character mismatched (a digit or `;` where `$`, `u`, `R`, `t` or `c`
is required). -/

/-- The ESC character (`\x1b`). -/
def escChar : Char := '\x1b'

/-- Consume a maximal run of ASCII digits (a greedy `\d*`). -/
def eatDigits : List Char → List Char
  | c :: rest => if c.isDigit then eatDigits rest else c :: rest
  | [] => []

/-- Consume a maximal run of digits and semicolons (the greedy `[0-9;]*` of
the DA1 pattern). -/
def eatDigitsSemis : List Char → List Char
  | c :: rest => if c.isDigit ∨ c = ';' then eatDigitsSemis rest else c :: rest
  | [] => []

/-- Match a literal character prefix, returning the remainder. -/
def expectChars : List Char → List Char → Option (List Char)
  | [], l => some l
  | c :: cs, x :: l => if x = c then expectChars cs l else none
  | _ :: _, [] => none

/-- The DECRPM tail `\d*(?:;\d+)*\$y` entered right after the first digit:
keep consuming digits, a `;` must be followed by a digit and re-enters the
loop, and `$` must be followed by `y`. -/
def decrpmAfterDigit : List Char → Bool
  | [] => false
  | c :: r =>
    if c.isDigit then decrpmAfterDigit r
    else if c = ';' then
      match r with
      | c2 :: r2 => if c2.isDigit then decrpmAfterDigit r2 else false
      | [] => false
    else if c = '$' then
      match r with
      | c2 :: _ => decide (c2 = 'y')
      | [] => false
    else false

/-- DECRPM at a position: `\x1b\[\?\d+(?:;\d+)*\$y`. -/
def decrpmAt (l : List Char) : Bool :=
  match expectChars [escChar, '[', '?'] l with
  | some (c :: r) => c.isDigit && decrpmAfterDigit r
  | some [] => false
  | none => false

/-- `\d+R`: at least one digit, then `R`. -/
def digitsThenR : List Char → Bool
  | c :: r =>
    if c.isDigit then
      match eatDigits r with
      | c2 :: _ => decide (c2 = 'R')
      | [] => false
    else false
  | [] => false

/-- CPR width-probe report at a position: `\x1b\[1;(?!1R)\d+R` — the negative
lookahead rejects `ESC[1;1R` (cursor did not move). -/
def cprAt (l : List Char) : Bool :=
  match expectChars [escChar, '[', '1', ';'] l with
  | some r => !(expectChars ['1', 'R'] r).isSome && digitsThenR r
  | none => false

/-- Is the two-character string terminator `ESC \` present anywhere
(the `[\s\S]*?\x1b\\` part of the XTVersion and kitty-graphics patterns)? -/
def hasEscBackslash : List Char → Bool
  | [] => false
  | c :: r =>
    (if c = escChar then
      match r with
      | c2 :: _ => decide (c2 = '\\')
      | [] => false
    else false)
    || hasEscBackslash r

/-- XTVersion report at a position: `\x1bP>\|[\s\S]*?\x1b\\`. -/
def xtversionAt (l : List Char) : Bool :=
  match expectChars [escChar, 'P', '>', '|'] l with
  | some r => hasEscBackslash r
  | none => false

/-- Kitty graphics response at a position: `\x1b_G[\s\S]*?\x1b\\`. -/
def kittyGraphicsAt (l : List Char) : Bool :=
  match expectChars [escChar, '_', 'G'] l with
  | some r => hasEscBackslash r
  | none => false

/-- Inside the optional second number of the kitty keyboard pattern: digits
then `u`. -/
def kittyKbdSecond : List Char → Bool
  | [] => false
  | c :: r => if c.isDigit then kittyKbdSecond r else decide (c = 'u')

/-- The kitty-keyboard tail `\d*(?:;\d+)?u` entered right after the first
digit. -/
def kittyKbdAfterDigit : List Char → Bool
  | [] => false
  | c :: r =>
    if c.isDigit then kittyKbdAfterDigit r
    else if c = ';' then
      match r with
      | c2 :: r2 => if c2.isDigit then kittyKbdSecond r2 else false
      | [] => false
    else decide (c = 'u')

/-- Kitty keyboard query reply at a position: `\x1b\[\?\d+(?:;\d+)?u`. -/
def kittyKbdAt (l : List Char) : Bool :=
  match expectChars [escChar, '[', '?'] l with
  | some (c :: r) => c.isDigit && kittyKbdAfterDigit r
  | some [] => false
  | none => false

/-- DA1 device attributes at a position: `\x1b\[\?[0-9;]*c`. -/
def da1At (l : List Char) : Bool :=
  match expectChars [escChar, '[', '?'] l with
  | some r =>
    match eatDigitsSemis r with
    | c :: _ => decide (c = 'c')
    | [] => false
  | none => false

/-- `\d+;\d+t`, the numeric tail of the pixel-resolution pattern. -/
def numSemiNumT : List Char → Bool
  | c :: r =>
    if c.isDigit then
      match eatDigits r with
      | c2 :: r3 =>
        if c2 = ';' then
          match r3 with
          | c3 :: r4 =>
            if c3.isDigit then
              match eatDigits r4 with
              | c4 :: _ => decide (c4 = 't')
              | [] => false
            else false
          | [] => false
        else false
      | [] => false
    else false
  | [] => false

/-- Pixel-resolution report at a position: `\x1b\[4;\d+;\d+t`. -/
def pixelResAt (l : List Char) : Bool :=
  match expectChars [escChar, '[', '4', ';'] l with
  | some r => numSemiNumT r
  | none => false

/-- Unanchored regex search: try the matcher at every start position. -/
def searchB (f : List Char → Bool) : List Char → Bool
  | [] => f []
  | c :: r => f (c :: r) || searchB f r

/-- `isCapabilityResponse` (part_000 lines 212–250): any of the six response
families matches somewhere in the token. -/
def isCapabilityResponse (s : String) : Bool :=
  let l := s.toList
  searchB decrpmAt l || searchB cprAt l || searchB xtversionAt l ||
  searchB kittyGraphicsAt l || searchB kittyKbdAt l || searchB da1At l

/-- `isPixelResolutionResponse` (part_000 lines 256–258). -/
def isPixelResolutionResponse (s : String) : Bool :=
  searchB pixelResAt s.toList

/-- Split a maximal leading digit run from a list. -/
def takeDigits : List Char → List Char × List Char
  | c :: r =>
    if c.isDigit then
      let p := takeDigits r
      (c :: p.1, p.2)
    else ([], c :: r)
  | [] => ([], [])

/-- `parseInt` on a digit run. -/
def digitsToNat (ds : List Char) : Nat :=
  ds.foldl (fun n c => n * 10 + (c.toNat - 48)) 0

/-- One positioned attempt of the capture regex `\x1b\[4;(\d+);(\d+)t`
(part_000 lines 272–281): on success, `(width, height)` with
`width = parseInt(match[2])` and `height = parseInt(match[1])`. -/
def pixelResParseAt (l : List Char) : Option (Nat × Nat) :=
  match expectChars [escChar, '[', '4', ';'] l with
  | some r =>
    match takeDigits r with
    | (d1, r2) =>
      if d1 = [] then none
      else
        match r2 with
        | c :: r3 =>
          if c = ';' then
            match takeDigits r3 with
            | (d2, r4) =>
              if d2 = [] then none
              else
                match r4 with
                | c2 :: _ =>
                  if c2 = 't' then some (digitsToNat d2, digitsToNat d1) else none
                | [] => none
          else none
        | [] => none
  | none => none

/-- First match of a positioned parser over all start positions (the JS
`String.match` leftmost-match rule). -/
def searchFirst (f : List Char → Option (Nat × Nat)) : List Char → Option (Nat × Nat)
  | [] => f []
  | c :: r =>
    match f (c :: r) with
    | some v => some v
    | none => searchFirst f r

/-- `parsePixelResolution` (part_000 lines 272–281). -/
def parsePixelResolution (s : String) : Option (Nat × Nat) :=
  searchFirst pixelResParseAt s.toList

/-! ## The input-handler chain (`setupInput`, renderer.ts 989–1052) -/

/-- Events the renderer emits during input dispatch, as far as the claims
reach. -/
inductive InputEvent where
  | capabilities
  | pixelResolution (width height : Nat)
  | focus
  | blur
  deriving DecidableEq, Repr

/-- The renderer state touched by the non-mouse input handlers.
`capabilitiesVersion` is a ghost counter for the wholesale replacement of the
capabilities record (`processCapabilityResponse` + `getTerminalCapabilities`
are calls into the out-of-scope native engine); `keyDecoderSeen` is a ghost
log of every token offered to the key decoder. -/
structure InputState where
  capabilitiesVersion : Nat := 0
  cellMetrics : Option CellMetrics := none
  resolution : Option (Nat × Nat) := none
  waitingForPixelResolution : Bool := false
  events : List InputEvent := []
  keyDecoderSeen : List String := []
  deriving DecidableEq, Repr

/-- `capabilityHandler` (renderer.ts 965–975): claim any capability response,
replace the capabilities record, invalidate the cached cell metrics and emit
the `capabilities` event. -/
def capabilityHandler (st : InputState) (seq : String) : Bool × InputState :=
  if isCapabilityResponse seq then
    (true, { st with capabilitiesVersion := st.capabilitiesVersion + 1,
                     cellMetrics := none,
                     events := st.events ++ [.capabilities] })
  else (false, st)

/-- The anonymous pixel-resolution handler (renderer.ts 994–1020): on a
recognized and parsed response, record it, invalidate the cell metrics, emit
the event and claim (the `requestRender()` call it also makes lives in the
`RendererState` embedding); on a parse failure, or an unrecognized token, log
(a no-op with `OTUI_DEBUG` unset) and decline. -/
def pixelResolutionHandler (st : InputState) (seq : String) : Bool × InputState :=
  if isPixelResolutionResponse seq then
    match parsePixelResolution seq with
    | some r =>
      (true, { st with resolution := some r, cellMetrics := none,
                       waitingForPixelResolution := false,
                       events := st.events ++ [.pixelResolution r.1 r.2] })
    | none => (false, st)
  else (false, st)

/-- `focusHandler` (renderer.ts 977–987). -/
def focusHandler (st : InputState) (seq : String) : Bool × InputState :=
  if seq = "\x1b[I" then (true, { st with events := st.events ++ [.focus] })
  else if seq = "\x1b[O" then (true, { st with events := st.events ++ [.blur] })
  else (false, st)

/-- The key-decoder handler (renderer.ts 1023–1025), the chain's catch-all
`this._keyHandler.processInput(sequence)`: for the claims settled here only
whether a token ever reaches it matters, so it records the token in the ghost
log (its decode result and return value are irrelevant past the end of the
chain). -/
def keyDecoderHandler (st : InputState) (seq : String) : Bool × InputState :=
  (true, { st with keyDecoderSeen := st.keyDecoderSeen ++ [seq] })

/-- The handler chain in registration order (renderer.ts 989–1025, no
prepended handlers by default): pixel resolution first, then capability, then
focus, then the key decoder last. -/
def inputHandlerChain : List (InputState → String → Bool × InputState) :=
  [pixelResolutionHandler, capabilityHandler, focusHandler, keyDecoderHandler]

/-- The stdin-buffer data listener (renderer.ts 1043–1047): offer the token to
each handler in order and stop at the first claim. -/
def runHandlerChain :
    List (InputState → String → Bool × InputState) → InputState → String → InputState
  | [], st, _ => st
  | h :: rest, st, seq =>
    match h st seq with
    | (true, st1) => st1
    | (false, st1) => runHandlerChain rest st1 seq

/-- Dispatch one complete token through the renderer's input chain. -/
def dispatchSequence (st : InputState) (seq : String) : InputState :=
  runHandlerChain inputHandlerChain st seq

/-- The DECRPM capability-response token `ESC [ ? a ; b $ y` for digit runs
`a`, `b` (the spec's example is `a = "1"`, `b = "2"`). -/
def decrpmToken (a b : List Char) : String :=
  String.mk (escChar :: '[' :: '?' :: (a ++ (';' :: (b ++ ['$', 'y']))))

/-! ## Priority key dispatch (`InternalKeyHandler.emitWithPriority`,
`src/unnamed/part_000` lines 126–192) -/

/-- What a key/paste/key-release listener does when invoked, as far as
dispatch order is concerned: it may call `preventDefault()` on the in-flight
event and may register new target-scoped listeners (`onInternal`, e.g. as a
consequence of a focus change).  Listeners are identified by numeric ids and
`beh` maps an id to its behaviour; a listener's other side effects do not feed
back into dispatch. -/
structure ListenerBehavior where
  prevents : Bool := false
  adds : List Nat := []
  deriving DecidableEq, Repr

/-- The state of one `emitWithPriority` dispatch: the target-scoped listener
set for the event (`renderableHandlers.get(event)` — a JS `Set`, iterated in
insertion order, modelled as a duplicate-free list), the event's one-way
`defaultPrevented` flag, and the ghost log of invocations in order. -/
structure DispatchState where
  targets : List Nat := []
  prevented : Bool := false
  invoked : List Nat := []
  deriving DecidableEq, Repr

/-- Invoke one listener: log it, apply its `preventDefault` (the flag is
one-way), and add the listeners it registers to the target set (`Set.add`
appends new elements in order and ignores ones already present). -/
def runListener (beh : Nat → ListenerBehavior) (id : Nat)
    (ds : DispatchState) : DispatchState :=
  let ds1 : DispatchState := { ds with invoked := ds.invoked ++ [id] }
  let ds2 : DispatchState :=
    if (beh id).prevents then { ds1 with prevented := true } else ds1
  { ds2 with
    targets := (beh id).adds.foldl (fun ts t => if t ∈ ts then ts else ts ++ [t]) ds2.targets }

/-- Run a list of listeners in order (used for the global phase —
`super.emit`, whose listener exceptions are caught and logged without
stopping dispatch — and for the snapshot phase). -/
def runAll (beh : Nat → ListenerBehavior) (ids : List Nat)
    (ds : DispatchState) : DispatchState :=
  ids.foldl (fun ds i => runListener beh i ds) ds

/-- `emitWithPriority` (part_000 lines 138–171): first `super.emit` runs all
globally registered listeners in registration order; then the target-scoped
set is snapshotted (`[...renderableSet]`); if it is nonempty and the event was
not `defaultPrevented`, the snapshot is run in order. -/
def emitWithPriority (beh : Nat → ListenerBehavior) (globals : List Nat)
    (ds0 : DispatchState) : DispatchState :=
  let ds1 := runAll beh globals ds0
  let snapshot := ds1.targets
  if snapshot ≠ [] then
    if ds1.prevented then ds1
    else runAll beh snapshot ds1
  else ds1

/-! ## Mouse dispatch (`handleMouseData`, renderer.ts 1054–1196) -/

/-- Mouse event types (`MouseEventType`, renderer.ts). -/
inductive MouseEventType where
  | down
  | up
  | move
  | drag
  | dragEnd
  | over
  | out
  | drop
  | scroll
  deriving DecidableEq, Repr

/-- A decoded raw mouse event as produced by the mouse parser, after the
split-height offset correction: type, button, coordinates and the ctrl
modifier (the only modifier dispatch consults). -/
structure RawMouseEvent where
  etype : MouseEventType
  button : Nat
  x : Int
  y : Int
  ctrl : Bool
  deriving DecidableEq, Repr

/-- One `processMouseEvent` delivery: the target renderable, the event type
(possibly synthesized: `out`, `over`, `drag-end`, `drop`), the `source`
attribute (the captured renderable for `over`/`drop`), and the
`isSelecting` tag of selection-related deliveries. -/
structure DeliveredMouseEvent where
  target : Nat
  etype : MouseEventType
  source : Option Nat := none
  isSelecting : Bool := false
  deriving DecidableEq, Repr

/-- The renderer fields the mouse dispatcher reads and writes
(renderer.ts 351–356), with the current selection reduced to its two flags
(`currentSelection` nullity and `isSelecting`), plus the ghost delivery log
and a ghost count of `requestRender` calls made by dispatch. -/
structure MouseDispatchState where
  capturedRenderable : Option Nat := none
  lastOverRenderable : Option Nat := none
  lastOverRenderableNum : Nat := 0
  hasSelection : Bool := false
  isSelecting : Bool := false
  delivered : List DeliveredMouseEvent := []
  renderRequests : Nat := 0
  deriving DecidableEq, Repr

/-- The tail of mouse dispatch (renderer.ts 1174–1192): deliver the plain
event to the hit renderable, (re-)establishing capture only for a
left-button drag; with no hit renderable, clear capture and hover; finally,
if the delivered event was not `defaultPrevented` and a `down` happened while
a selection exists, clear the selection.  `prevents r t` models whether
target `r`'s `processMouseEvent` calls `preventDefault()` on an event of
type `t`. -/
def mouseFinalize (prevents : Nat → MouseEventType → Bool) (ev : RawMouseEvent)
    (hit : Option Nat) (st : MouseDispatchState) : MouseDispatchState :=
  match hit with
  | some r =>
    let stc : MouseDispatchState :=
      if decide (ev.etype = .drag) && decide (ev.button = 0) then
        { st with capturedRenderable := some r }
      else { st with capturedRenderable := none }
    let std : MouseDispatchState :=
      { stc with delivered := stc.delivered ++ [{ target := r, etype := ev.etype }] }
    if !(prevents r ev.etype) && decide (ev.etype = .down) && std.hasSelection then
      { std with hasSelection := false, isSelecting := false }
    else std
  | none =>
    let stc : MouseDispatchState :=
      { st with capturedRenderable := none, lastOverRenderable := none }
    if decide (ev.etype = .down) && stc.hasSelection then
      { stc with hasSelection := false, isSelecting := false }
    else stc

/-- The mouse dispatch algorithm (`handleMouseData` after a successful parse
and offset correction, renderer.ts 1068–1192).  `hitNum` is the raw id from
`checkHit` and `hit` the renderable it resolves to via
`renderablesByNumber` (`none` when the id maps to no live renderable);
`startsSel r` models `r.selectable && !r.isDestroyed &&
r.shouldStartSelection(x, y)`.  Selection bookkeeping (`startSelection`,
`updateSelection`, `finishSelection`, `clearSelection`) is modelled by its
effect on the selection flags; the selectable-walk notifications are
out-of-scope collaborator calls. -/
def dispatchMouse (startsSel : Nat → Bool) (prevents : Nat → MouseEventType → Bool)
    (st : MouseDispatchState) (ev : RawMouseEvent) (hitNum : Nat) (hit : Option Nat) :
    MouseDispatchState :=
  if ev.etype = .scroll then
    match hit with
    | some r => { st with delivered := st.delivered ++ [{ target := r, etype := .scroll }] }
    | none => st
  else
    let sameElement := decide (hitNum = st.lastOverRenderableNum)
    let st := { st with lastOverRenderableNum := hitNum }
    let selStart : Bool :=
      decide (ev.etype = .down) && decide (ev.button = 0)
      && !(st.hasSelection && st.isSelecting) && !ev.ctrl
      && (match hit with | some r => startsSel r | none => false)
    if selStart then
      match hit with
      | some r =>
        { st with hasSelection := true, isSelecting := true,
                  delivered := st.delivered ++ [{ target := r, etype := ev.etype }] }
      | none => st
    else if decide (ev.etype = .drag) && st.hasSelection && st.isSelecting then
      match hit with
      | some r =>
        { st with delivered := st.delivered
            ++ [{ target := r, etype := ev.etype, isSelecting := true }] }
      | none => st
    else if decide (ev.etype = .up) && st.hasSelection && st.isSelecting then
      let st1 : MouseDispatchState :=
        match hit with
        | some r =>
          { st with delivered := st.delivered
              ++ [{ target := r, etype := ev.etype, isSelecting := true }] }
        | none => st
      { st1 with isSelecting := false }
    else if decide (ev.etype = .down) && decide (ev.button = 0)
        && st.hasSelection && ev.ctrl then
      { st with isSelecting := true }
    else
      let st2 : MouseDispatchState :=
        if !sameElement && (decide (ev.etype = .drag) || decide (ev.etype = .move)) then
          let stOut : MouseDispatchState :=
            match st.lastOverRenderable with
            | some o =>
              if ¬(some o = st.capturedRenderable) then
                { st with delivered := st.delivered ++ [{ target := o, etype := .out }] }
              else st
            | none => st
          let stOver : MouseDispatchState := { stOut with lastOverRenderable := hit }
          match hit with
          | some r =>
            { stOver with delivered := stOver.delivered
                ++ [{ target := r, etype := .over, source := st.capturedRenderable }] }
          | none => stOver
        else st
      match st2.capturedRenderable with
      | some cap =>
        if ¬(ev.etype = .up) then
          { st2 with delivered := st2.delivered ++ [{ target := cap, etype := ev.etype }] }
        else
          let st3 : MouseDispatchState := { st2 with delivered := st2.delivered
              ++ [{ target := cap, etype := .dragEnd }, { target := cap, etype := ev.etype }] }
          let st4 : MouseDispatchState :=
            match hit with
            | some r =>
              { st3 with delivered := st3.delivered
                  ++ [{ target := r, etype := .drop, source := some cap }] }
            | none => st3
          let st5 : MouseDispatchState := { st4 with
            lastOverRenderable := some cap,
            lastOverRenderableNum := cap,
            capturedRenderable := none,
            renderRequests := st4.renderRequests + 1 }
          mouseFinalize prevents ev hit st5
      | none => mouseFinalize prevents ev hit st2

/-! ## Lemmas about the control operations -/

/-- The stored target frame interval is the source's `1000 / 30` ms. -/
theorem initState_targetFrameTime : initState.targetFrameTime = 1000 / 30 := by
  have h : initState.targetFrameTime = Rat.mk' 100 3 (by norm_num) (by norm_num) := rfl
  rw [h, Rat.mk'_eq_divInt, Rat.divInt_eq_div]; norm_num

/-- The stored minimum frame interval is the source's `1000 / 60` ms. -/
theorem initState_minTargetFrameTime : initState.minTargetFrameTime = 1000 / 60 := by
  have h : initState.minTargetFrameTime = Rat.mk' 50 3 (by norm_num) (by norm_num) := rfl
  rw [h, Rat.mk'_eq_divInt, Rat.divInt_eq_div]; norm_num

namespace RendererState

theorem internalStart_controlState (st : RendererState) :
    (internalStart st).controlState = st.controlState := by
  unfold internalStart; split <;> rfl

theorem internalStart_liveRequestCounter (st : RendererState) :
    (internalStart st).liveRequestCounter = st.liveRequestCounter := by
  unfold internalStart; split <;> rfl

theorem internalStart_isDestroyed (st : RendererState) :
    (internalStart st).isDestroyed = st.isDestroyed := by
  unfold internalStart; split <;> rfl

theorem internalStart_isRunning (st : RendererState) (hd : st.isDestroyed = false) :
    (internalStart st).isRunning = true := by
  unfold internalStart; split <;> simp_all

theorem internalStart_stdinAttached (st : RendererState) :
    (internalStart st).stdinAttached = st.stdinAttached := by
  unfold internalStart; split <;> rfl

theorem internalStart_resumeRenderRequests (st : RendererState) :
    (internalStart st).resumeRenderRequests = st.resumeRenderRequests := by
  unfold internalStart; split <;> rfl

theorem internalStart_startLoopCount (st : RendererState) (hr : st.isRunning = false)
    (hd : st.isDestroyed = false) :
    (internalStart st).startLoopCount = st.startLoopCount + 1 := by
  simp [internalStart, hr, hd]

theorem requestRender_controlState (st : RendererState) (now : ℚ) :
    (requestRender st now).controlState = st.controlState := by
  simp only [requestRender]; split_ifs <;> rfl

theorem requestRender_isRunning (st : RendererState) (now : ℚ) :
    (requestRender st now).isRunning = st.isRunning := by
  simp only [requestRender]; split_ifs <;> rfl

theorem requestRender_startLoopCount (st : RendererState) (now : ℚ) :
    (requestRender st now).startLoopCount = st.startLoopCount := by
  simp only [requestRender]; split_ifs <;> rfl

theorem requestRender_resumeRenderRequests (st : RendererState) (now : ℚ) :
    (requestRender st now).resumeRenderRequests = st.resumeRenderRequests := by
  simp only [requestRender]; split_ifs <;> rfl

theorem requestRender_stdinAttached (st : RendererState) (now : ℚ) :
    (requestRender st now).stdinAttached = st.stdinAttached := by
  simp only [requestRender]; split_ifs <;> rfl

theorem requestLive_not_idle (st : RendererState) (h : st.controlState ≠ .IDLE) :
    requestLive st = { st with liveRequestCounter := st.liveRequestCounter + 1 } := by
  simp [requestLive, h]

theorem requestLive_idle (st : RendererState) (h : st.controlState = .IDLE) :
    requestLive st = internalStart
      { st with controlState := .AUTO_STARTED,
                liveRequestCounter := st.liveRequestCounter + 1 } := by
  simp [requestLive, h]

theorem dropLive_not_auto (st : RendererState) (h : st.controlState ≠ .AUTO_STARTED) :
    dropLive st = { st with liveRequestCounter := st.liveRequestCounter - 1 } := by
  simp [dropLive, h]

theorem dropLive_auto_many (st : RendererState) (h : st.controlState = .AUTO_STARTED)
    (h2 : 1 < st.liveRequestCounter) :
    dropLive st = { st with liveRequestCounter := st.liveRequestCounter - 1 } := by
  have hz : ¬(st.liveRequestCounter - 1 = 0) := by omega
  simp [dropLive, h, hz]

theorem dropLive_auto_one (st : RendererState) (h : st.controlState = .AUTO_STARTED)
    (h1 : st.liveRequestCounter = 1) :
    dropLive st = { st with controlState := .IDLE, liveRequestCounter := 0,
                            isRunning := false } := by
  simp [dropLive, internalPause, h, h1]

theorem iterate_requestLive_not_idle (n : Nat) :
    ∀ st : RendererState, st.controlState ≠ .IDLE →
      requestLive^[n] st = { st with liveRequestCounter := st.liveRequestCounter + n } := by
  induction n with
  | zero => intro st _; simp
  | succ n ih =>
    intro st h
    rw [Function.iterate_succ_apply, requestLive_not_idle st h,
        ih _ (by simpa using h)]
    have h2 : st.liveRequestCounter + 1 + n = st.liveRequestCounter + (n + 1) := by omega
    rw [h2]

theorem iterate_dropLive_not_auto (n : Nat) :
    ∀ st : RendererState, st.controlState ≠ .AUTO_STARTED →
      dropLive^[n] st = { st with liveRequestCounter := st.liveRequestCounter - n } := by
  induction n with
  | zero => intro st _; simp
  | succ n ih =>
    intro st h
    rw [Function.iterate_succ_apply, dropLive_not_auto st h, ih _ (by simpa using h)]
    have h2 : st.liveRequestCounter - 1 - n = st.liveRequestCounter - (n + 1) := by omega
    rw [h2]

theorem iterate_dropLive_auto (n : Nat) :
    ∀ st : RendererState, st.controlState = .AUTO_STARTED → n < st.liveRequestCounter →
      dropLive^[n] st = { st with liveRequestCounter := st.liveRequestCounter - n } := by
  induction n with
  | zero => intro st _ _; simp
  | succ n ih =>
    intro st h hlt
    rw [Function.iterate_succ_apply, dropLive_auto_many st h (by omega),
        ih _ (by simpa using h) (by simp; omega)]
    have h2 : st.liveRequestCounter - 1 - n = st.liveRequestCounter - (n + 1) := by omega
    rw [h2]

theorem roundTrip_of_not_idle_not_auto (st : RendererState) (N : Nat)
    (h1 : st.controlState ≠ .IDLE) (h2 : st.controlState ≠ .AUTO_STARTED) :
    dropLive^[N] (requestLive^[N] st) = st := by
  rw [iterate_requestLive_not_idle N st h1,
      iterate_dropLive_not_auto N _ (by simpa using h2)]
  simp

theorem roundTrip_of_auto (st : RendererState) (N : Nat)
    (h : st.controlState = .AUTO_STARTED) (hpos : 0 < st.liveRequestCounter) :
    dropLive^[N] (requestLive^[N] st) = st := by
  rw [iterate_requestLive_not_idle N st (by simp [h]),
      iterate_dropLive_auto N _ (by simpa using h) (by simp; omega)]
  simp

theorem roundTrip_of_idle (st : RendererState) (N : Nat) (hN : 1 ≤ N)
    (hidle : st.controlState = .IDLE) (h0 : st.liveRequestCounter = 0) :
    (dropLive^[N] (requestLive^[N] st)).controlState = .IDLE
    ∧ (dropLive^[N] (requestLive^[N] st)).liveRequestCounter = 0
    ∧ (dropLive^[N] (requestLive^[N] st)).isRunning = false := by
  obtain ⟨N', rfl⟩ : ∃ n, N = n + 1 := ⟨N - 1, by omega⟩
  rw [Function.iterate_succ_apply requestLive N' st, requestLive_idle st hidle]
  have hA1 : (internalStart { st with
      controlState := .AUTO_STARTED,
      liveRequestCounter := st.liveRequestCounter + 1 }).controlState
      = .AUTO_STARTED := by rw [internalStart_controlState]
  have hA2 : (internalStart { st with
      controlState := .AUTO_STARTED,
      liveRequestCounter := st.liveRequestCounter + 1 }).liveRequestCounter = 1 := by
    rw [internalStart_liveRequestCounter]; simp [h0]
  rw [iterate_requestLive_not_idle N' _ (by simp [hA1])]
  rw [Function.iterate_succ_apply' dropLive N']
  rw [iterate_dropLive_auto N' _ (by simpa using hA1) (by simp [hA2]; try omega)]
  rw [dropLive_auto_one _ (by simpa using hA1) (by simp [hA2])]
  simp

end RendererState

open RendererState in
/-- C1 (amended).  With the live-request counter consistent with the control
state (zero while `IDLE`, positive while `AUTO_STARTED` — the invariant the
live-request bookkeeping itself preserves, though not one of the full public
API, see the counterexample): `requestLive()` N times followed by `dropLive()`
N times leaves `controlState` equal to `IDLE` iff it was `IDLE` before; an
explicit state (and the counter) is left unchanged by the round trip; the
`IDLE → AUTO_STARTED` transition (which starts the loop) happens exactly when
the counter becomes positive from zero while idle, and `AUTO_STARTED → IDLE`
(which stops) exactly when the counter returns to zero. -/
theorem claim_C1 (st : RendererState) (N : Nat) (hN : 1 ≤ N)
    (hc : liveConsistent st) (hd : st.isDestroyed = false) :
    ((dropLive^[N] (requestLive^[N] st)).controlState = .IDLE ↔ st.controlState = .IDLE)
  ∧ (isExplicitState st.controlState →
      (dropLive^[N] (requestLive^[N] st)).controlState = st.controlState
      ∧ (dropLive^[N] (requestLive^[N] st)).liveRequestCounter = st.liveRequestCounter)
  ∧ (((requestLive st).controlState = .AUTO_STARTED ∧ st.controlState ≠ .AUTO_STARTED)
      ↔ (st.controlState = .IDLE ∧ st.liveRequestCounter = 0))
  ∧ (st.controlState = .IDLE → (requestLive st).isRunning = true)
  ∧ (((dropLive st).controlState = .IDLE ∧ st.controlState ≠ .IDLE)
      ↔ (st.controlState = .AUTO_STARTED ∧ st.liveRequestCounter = 1))
  ∧ ((st.controlState = .AUTO_STARTED ∧ st.liveRequestCounter = 1) →
      (dropLive st).isRunning = false) := by
  obtain ⟨hci, hca⟩ := hc
  refine ⟨?_, ?_, ?_, ?_, ?_, ?_⟩
  · cases hcs : st.controlState with
    | IDLE => simp [(roundTrip_of_idle st N hN hcs (hci hcs)).1, hcs]
    | AUTO_STARTED =>
      rw [roundTrip_of_auto st N hcs (hca hcs)]
      simp [hcs]
    | EXPLICIT_STARTED =>
      rw [roundTrip_of_not_idle_not_auto st N (by simp [hcs]) (by simp [hcs])]
      simp [hcs]
    | EXPLICIT_PAUSED =>
      rw [roundTrip_of_not_idle_not_auto st N (by simp [hcs]) (by simp [hcs])]
      simp [hcs]
    | EXPLICIT_SUSPENDED =>
      rw [roundTrip_of_not_idle_not_auto st N (by simp [hcs]) (by simp [hcs])]
      simp [hcs]
    | EXPLICIT_STOPPED =>
      rw [roundTrip_of_not_idle_not_auto st N (by simp [hcs]) (by simp [hcs])]
      simp [hcs]
  · intro hex
    have h1 : st.controlState ≠ .IDLE := by
      rcases hex with h | h | h | h <;> simp [h]
    have h2 : st.controlState ≠ .AUTO_STARTED := by
      rcases hex with h | h | h | h <;> simp [h]
    rw [roundTrip_of_not_idle_not_auto st N h1 h2]
    exact ⟨rfl, rfl⟩
  · cases hcs : st.controlState with
    | IDLE =>
      rw [requestLive_idle st hcs]
      simp [internalStart_controlState, hcs, hci hcs]
    | AUTO_STARTED => simp [hcs]
    | EXPLICIT_STARTED => rw [requestLive_not_idle st (by simp [hcs])]; simp [hcs]
    | EXPLICIT_PAUSED => rw [requestLive_not_idle st (by simp [hcs])]; simp [hcs]
    | EXPLICIT_SUSPENDED => rw [requestLive_not_idle st (by simp [hcs])]; simp [hcs]
    | EXPLICIT_STOPPED => rw [requestLive_not_idle st (by simp [hcs])]; simp [hcs]
  · intro hcs
    rw [requestLive_idle st hcs]
    exact internalStart_isRunning _ (by simpa using hd)
  · cases hcs : st.controlState with
    | IDLE => simp [hcs]
    | AUTO_STARTED =>
      have hpos := hca hcs
      rcases Nat.lt_or_ge 1 st.liveRequestCounter with hgt | hle
      · rw [dropLive_auto_many st hcs hgt]
        simp [hcs]
        omega
      · have h1 : st.liveRequestCounter = 1 := by omega
        rw [dropLive_auto_one st hcs h1]
        simp [hcs, h1]
    | EXPLICIT_STARTED => rw [dropLive_not_auto st (by simp [hcs])]; simp [hcs]
    | EXPLICIT_PAUSED => rw [dropLive_not_auto st (by simp [hcs])]; simp [hcs]
    | EXPLICIT_SUSPENDED => rw [dropLive_not_auto st (by simp [hcs])]; simp [hcs]
    | EXPLICIT_STOPPED => rw [dropLive_not_auto st (by simp [hcs])]; simp [hcs]
  · rintro ⟨hcs, h1⟩
    rw [dropLive_auto_one st hcs h1]

/-- Closed witness for C1 at a concrete consistent input: two `requestLive`
then two `dropLive` from the freshly constructed renderer return to `IDLE`. -/
theorem claim_C1_witness :
    (1 ≤ 2) ∧ liveConsistent initState ∧ initState.isDestroyed = false ∧
    ((RendererState.dropLive^[2] (RendererState.requestLive^[2] initState)).controlState
        = .IDLE ↔ initState.controlState = .IDLE) :=
  ⟨by decide, ⟨by decide, by decide⟩, by decide,
    (claim_C1 initState 2 (by decide) ⟨by decide, by decide⟩ (by decide)).1⟩

/-- A reachable state that refutes C1 as frozen: `requestLive(); stop(); auto()`
leaves the renderer `IDLE` with the live-request counter at 1. -/
def c1Bad : RendererState :=
  RendererState.auto (RendererState.stop (RendererState.requestLive initState))

/-- Counterexample to C1 as stated: from the reachable state `c1Bad`, whose
`controlState` is `IDLE`, one `requestLive()` followed by one `dropLive()`
(N = 1) leaves `controlState = AUTO_STARTED`, not `IDLE`. -/
theorem claim_C1_counterexample :
    c1Bad.controlState = .IDLE
    ∧ (RendererState.dropLive (RendererState.requestLive c1Bad)).controlState
        = .AUTO_STARTED := by decide

open RendererState in
/-- Helper: `suspend(); resume()` computed in closed form — the state after the
round trip is an `internalStart` (pre-suspend state was started) or a
`requestRender` (otherwise) applied to the pre-suspend state with the snapshot
fields updated; the mouse flag is restored to its pre-suspend value. -/
theorem suspend_resume_eq (st : RendererState) (now : ℚ) :
    resume (suspend st) now =
      (if st.controlState = .AUTO_STARTED ∨ st.controlState = .EXPLICIT_STARTED then
        internalStart
          { st with
            previousControlState := st.controlState,
            isRunning := false,
            suspendedMouseEnabled := st.useMouse,
            stdinAttached := true }
      else
        requestRender
          { st with
            previousControlState := st.controlState,
            isRunning := false,
            suspendedMouseEnabled := st.useMouse,
            stdinAttached := true,
            resumeRenderRequests := st.resumeRenderRequests + 1 } now) := by
  by_cases hm : st.useMouse <;>
  by_cases hp : (st.controlState = .AUTO_STARTED ∨ st.controlState = .EXPLICIT_STARTED) <;>
  simp [resume, suspend, internalPause, hm, hp]

open RendererState in
/-- C2 (confirmed).  For every pre-suspend control state `s` of a live
renderer, `suspend()` then `resume()` restores `controlState = s`; `resume`
restarts the render loop (a `startRenderLoop` kick-off, leaving the renderer
running) exactly when `s` is `AUTO_STARTED` or `EXPLICIT_STARTED`, and
otherwise takes the `requestRender` branch — a single render request — without
resuming continuous scheduling. -/
theorem claim_C2 (st : RendererState) (now : ℚ) (hd : st.isDestroyed = false) :
    ((resume (suspend st) now).controlState = st.controlState)
  ∧ (((resume (suspend st) now).isRunning = true)
      ↔ (st.controlState = .AUTO_STARTED ∨ st.controlState = .EXPLICIT_STARTED))
  ∧ ((st.controlState = .AUTO_STARTED ∨ st.controlState = .EXPLICIT_STARTED) →
      (resume (suspend st) now).startLoopCount = st.startLoopCount + 1
      ∧ (resume (suspend st) now).resumeRenderRequests = st.resumeRenderRequests)
  ∧ (¬(st.controlState = .AUTO_STARTED ∨ st.controlState = .EXPLICIT_STARTED) →
      (resume (suspend st) now).isRunning = false
      ∧ (resume (suspend st) now).resumeRenderRequests = st.resumeRenderRequests + 1
      ∧ (resume (suspend st) now).startLoopCount = st.startLoopCount) := by
  rw [suspend_resume_eq]
  by_cases hp : (st.controlState = .AUTO_STARTED ∨ st.controlState = .EXPLICIT_STARTED)
  · simp [hp, internalStart, hd]
  · simp [hp, requestRender_controlState, requestRender_isRunning,
      requestRender_startLoopCount, requestRender_resumeRenderRequests]

/-- Closed witness for C2 at a concrete input: a paused renderer keeps
`EXPLICIT_PAUSED` across `suspend(); resume()`. -/
theorem claim_C2_witness :
    ((RendererState.pause initState).isDestroyed = false)
    ∧ ((RendererState.resume (RendererState.suspend (RendererState.pause initState)) 0).controlState
        = (RendererState.pause initState).controlState) :=
  ⟨by decide, (claim_C2 (RendererState.pause initState) 0 (by decide)).1⟩

open RendererState in
/-- C10 (confirmed).  `resume()` checks no precondition (it is defined, and
throw-free, on every state — the embedding is a total function): it
unconditionally overwrites `controlState` with the most recent suspend
snapshot (`_previousControlState`, initialized to `IDLE`) and re-attaches the
stdin listener; it never stops a running loop, so calling `resume()` on a
renderer that was started but never suspended leaves the loop running while
`controlState` reads `IDLE`. -/
theorem claim_C10 :
    (∀ (st : RendererState) (now : ℚ),
        (resume st now).controlState = st.previousControlState
        ∧ (resume st now).stdinAttached = true)
  ∧ (∀ (st : RendererState) (now : ℚ),
        st.isRunning = true → (resume st now).isRunning = true)
  ∧ ((resume (start initState) 0).controlState = .IDLE
      ∧ (resume (start initState) 0).isRunning = true) := by
  refine ⟨?_, ?_, by decide, by decide⟩
  · intro st now
    by_cases hm : st.suspendedMouseEnabled <;>
    by_cases hp : (st.previousControlState = .AUTO_STARTED
        ∨ st.previousControlState = .EXPLICIT_STARTED) <;>
    simp [resume, hm, hp, internalStart_controlState, internalStart_stdinAttached,
      requestRender_controlState, requestRender_stdinAttached]
  · intro st now h
    by_cases hm : st.suspendedMouseEnabled <;>
    by_cases hp : (st.previousControlState = .AUTO_STARTED
        ∨ st.previousControlState = .EXPLICIT_STARTED) <;>
    simp [resume, hm, hp, internalStart, requestRender_isRunning, h]

/-- Closed witness for C10: a started, never-suspended renderer is running,
and after `resume()` it is still running (with `controlState` reset). -/
theorem claim_C10_witness :
    ((RendererState.start initState).isRunning = true)
    ∧ (RendererState.resume (RendererState.start initState) 0).isRunning = true :=
  ⟨by decide, claim_C10.2.1 (RendererState.start initState) 0 (by decide)⟩

open RendererState in
/-- C3 (amended).  `requestRender()`: a no-op (state unchanged) while
`EXPLICIT_SUSPENDED`, and also a no-op whenever the render loop is running
(`isRunning`), even if a frame is currently rendering; when the loop is not
running and a one-shot frame is currently rendering, it only sets the
immediate-rerender flag instead of scheduling a second frame; otherwise it
arms exactly one frame activation after `max(0, minFrameInterval −
elapsedSinceLast)`, and every further call before that activation collapses
into the single armed activation; while `EXPLICIT_PAUSED` the armed activation
publishes to the frame-buffer engine. -/
theorem claim_C3 (st : RendererState) (now now2 frameTime : ℚ) :
    (st.controlState = .EXPLICIT_SUSPENDED → requestRender st now = st)
  ∧ (st.isRunning = true → requestRender st now = st)
  ∧ (st.controlState ≠ .EXPLICIT_SUSPENDED → st.isRunning = false → st.rendering = true →
      requestRender st now = { st with immediateRerenderRequested := true })
  ∧ (st.controlState ≠ .EXPLICIT_SUSPENDED → st.isRunning = false → st.rendering = false →
      st.updateScheduled = false → st.renderTimeout = none →
      requestRender st now = { st with
        updateScheduled := true,
        scheduledDelay := some (max (st.minTargetFrameTime - (now - st.lastTime)) 0) })
  ∧ (st.controlState ≠ .EXPLICIT_SUSPENDED → st.isRunning = false → st.rendering = false →
      st.updateScheduled = true → requestRender st now = st)
  ∧ (st.controlState = .EXPLICIT_PAUSED → st.isRunning = false → st.rendering = false →
      st.renderingNative = false → st.updateScheduled = false → st.renderTimeout = none →
      st.isDestroyed = false →
      Except.map (fun s2 => s2.publishCount)
          (activateFrame (requestRender st now) now2 frameTime)
        = Except.ok (st.publishCount + 1)) := by
  refine ⟨?_, ?_, ?_, ?_, ?_, ?_⟩
  · intro h; simp [requestRender, h]
  · intro h; simp [requestRender, h]
  · intro h1 h2 h3; simp [requestRender, h1, h2, h3]
  · intro h1 h2 h3 h4 h5; simp [requestRender, h1, h2, h3, h4, h5]
  · intro h1 h2 h3 h4; simp [requestRender, h1, h2, h3, h4]
  · intro h1 h2 h3 h4 h5 h6 h7
    have hns : st.controlState ≠ .EXPLICIT_SUSPENDED := by simp [h1]
    have hreq : requestRender st now = { st with
        updateScheduled := true,
        scheduledDelay := some (max (st.minTargetFrameTime - (now - st.lastTime)) 0) } := by
      simp [requestRender, hns, h2, h3, h5, h6]
    rw [hreq]
    cases him : st.immediateRerenderRequested <;>
      simp [activateFrame, loop, loopBegin, loopFinish, renderNative, Except.map,
        h2, h3, h4, h7, him]

/-- Closed witness for C3: from a paused, quiescent renderer, `requestRender`
arms an activation and running that activation publishes exactly one frame. -/
theorem claim_C3_witness :
    Except.map (fun s2 => s2.publishCount)
        (RendererState.activateFrame
          (RendererState.requestRender (RendererState.pause (RendererState.start initState)) 0) 1 1)
      = Except.ok ((RendererState.pause (RendererState.start initState)).publishCount + 1) :=
  (claim_C3 (RendererState.pause (RendererState.start initState)) 0 1 1).2.2.2.2.2
    (by decide) (by decide) (by decide) (by decide) (by decide) (by decide) (by decide)

/-- Counterexample to C3 as stated: `midFrameState` is a reachable state in
which a frame is currently rendering (`rendering = true`, not suspended), yet
`requestRender` does not set the immediate-rerender flag — it returns the
state unchanged, because the `_isRunning` early return (renderer.ts 655–657)
fires before the `rendering` check. -/
theorem claim_C3_counterexample :
    midFrameState.rendering = true
  ∧ midFrameState.controlState = .EXPLICIT_STARTED
  ∧ midFrameState.isRunning = true
  ∧ RendererState.requestRender midFrameState 5 = midFrameState
  ∧ (RendererState.requestRender midFrameState 5).immediateRerenderRequested = false := by
  decide

open RendererState in
/-- C4 (amended).  Re-entry into frame production (`loop`) while a previous
iteration is still in flight is silently skipped: the guard at renderer.ts
1626 returns with the state unchanged, no error, and no publish.  The
synchronous `"Rendering called concurrently"` throw lives one level lower, in
`renderNative`, and fires exactly when `renderNative` itself is entered while
`renderingNative` is set; otherwise `renderNative` publishes normally. -/
theorem claim_C4 :
    (∀ (st : RendererState) (now frameTime : ℚ),
        st.rendering = true → loop st now frameTime = Except.ok st)
  ∧ (∀ st : RendererState, st.renderingNative = true →
        renderNative st = Except.error "Rendering called concurrently")
  ∧ (∀ st : RendererState, st.renderingNative = false →
        renderNative st = Except.ok { st with publishCount := st.publishCount + 1 }) := by
  refine ⟨?_, ?_, ?_⟩ <;> intros <;> simp [loop, renderNative, *]

/-- Closed witness for C4: at the concrete in-flight state `midFrameState`,
re-invoking `loop` returns `ok` with the state unchanged, and `renderNative`
on a state with `renderingNative` set throws. -/
theorem claim_C4_witness :
    RendererState.loop midFrameState 1 1 = Except.ok midFrameState
    ∧ RendererState.renderNative { midFrameState with renderingNative := true }
        = Except.error "Rendering called concurrently" :=
  ⟨claim_C4.1 midFrameState 1 1 (by decide),
   claim_C4.2.1 { midFrameState with renderingNative := true } (by decide)⟩

/-- Counterexample to C4 as stated: invoking frame production at the reachable
in-flight state `midFrameState` does not throw — it evaluates to `Except.ok`
with the state unchanged (no publish, nothing recorded), i.e. the concurrent
re-entry is silently skipped rather than failing loudly. -/
theorem claim_C4_counterexample :
    midFrameState.rendering = true
  ∧ RendererState.loop midFrameState 1 1 = Except.ok midFrameState :=
  ⟨rfl, rfl⟩

set_option maxRecDepth 4000 in
/-- C8 (code bug, theorem evaluating the code at the failing input).  For the
image bytes `"img"` ([105, 109, 103]) at pixel size 2×3, the payload the
renderer writes is exactly the iTerm2 framing with `preserveAspectRatio=1` —
it differs from the payload the spec, the repository's own test
(`renderer.images.test.ts:122`) and the documented variant of the encoder
(`src/unnamed/part_002`) prescribe, and contains no `preserveAspectRatio=0`
parameter. -/
theorem claim_C8_theorem :
    encodeItermImage [105, 109, 103] 2 3
      = "\x1b]1337;File=inline=1;width=2px;height=3px;preserveAspectRatio=1:aW1n\x07"
  ∧ encodeItermImage [105, 109, 103] 2 3 ≠ encodeItermImageSpec [105, 109, 103] 2 3
  ∧ ¬ List.IsInfix "preserveAspectRatio=0".toList
      (encodeItermImage [105, 109, 103] 2 3).toList := by
  refine ⟨by decide, by decide, by decide⟩

/-- C9 (amended).  In the kitty branch of the per-image pass, when the node
has a cached entry holding a handle id and the (re-)load succeeds, the
delete-by-handle sequence is emitted before the re-send whenever a send is
needed at all — when the content changed *or* when only the position changed —
and nothing is written when neither changed.  In particular a mere position
change of an unchanged image re-sends the escape sequence *with* a preceding
delete (the source guards the delete by `needsSend`, renderer.ts 1792, not by
`changedImage`). -/
theorem claim_C9 (metrics : Option CellMetrics) (p : ImageCacheEntry) (node : ImageNode)
    (d : List Nat) (nid : Nat) (i : Nat) (hid : p.kittyId = some i)
    (hskip : ¬((node.pixelWidthOverride.isSome ∨ node.pixelHeightOverride.isSome)
        ∧ metrics = none)) :
    (kittyContentChanged (some p) metrics node = true →
        (kittyFlushStep metrics (some p) node (some d) nid).1
          = [encodeKittyDelete i,
             kittyMoveSeq metrics node
               ++ encodeKittyImage i d (kittyPixelWidth metrics node)
                    (kittyPixelHeight metrics node)])
  ∧ (kittyContentChanged (some p) metrics node = false →
      kittyPositionChanged (some p) node = true →
        (kittyFlushStep metrics (some p) node (some d) nid).1
          = [encodeKittyDelete i,
             kittyMoveSeq metrics node
               ++ encodeKittyImage i p.data (kittyPixelWidth metrics node)
                    (kittyPixelHeight metrics node)])
  ∧ (kittyContentChanged (some p) metrics node = false →
      kittyPositionChanged (some p) node = false →
        (kittyFlushStep metrics (some p) node (some d) nid).1 = []) := by
  refine ⟨?_, ?_, ?_⟩
  · intro hc
    simp [kittyFlushStep, hskip, hc, hid]
  · intro hc hp
    simp [kittyFlushStep, hskip, hc, hp, hid]
  · intro hc hp
    simp [kittyFlushStep, hskip, hc, hp, hid]

/-- The cached entry of the C9 scenario: image `"a"`, 1×1 cell at the origin,
1×1 px, payload `[0]`, holding kitty handle 1. -/
def c9Prev : ImageCacheEntry :=
  { srcKey := "a", x := 0, y := 0, width := 1, height := 1, fit := "contain",
    pixelWidth := 1, pixelHeight := 1, data := [0], kittyId := some 1 }

/-- The same image in the next frame, moved one cell to the right and
otherwise unchanged. -/
def c9Node : ImageNode :=
  { srcKey := "a", width := 1, height := 1, fit := "contain",
    pixelWidthOverride := none, pixelHeightOverride := none, x := 1, y := 0 }

/-- Closed witness for C9 at a concrete input with changed content (the source
key differs): the delete for handle 1 precedes the re-send. -/
theorem claim_C9_witness :
    (kittyFlushStep none (some c9Prev) { c9Node with srcKey := "b" } (some [7]) 2).1
      = [encodeKittyDelete 1,
         kittyMoveSeq none { c9Node with srcKey := "b" }
           ++ encodeKittyImage 1 [7] (kittyPixelWidth none { c9Node with srcKey := "b" })
                (kittyPixelHeight none { c9Node with srcKey := "b" })] :=
  (claim_C9 none c9Prev { c9Node with srcKey := "b" } [7] 2 1 rfl (by decide)).1 (by decide)

/-- Counterexample to C9 as stated: `c9Node` is `c9Prev`'s image merely moved
(content identical, position changed), yet the emitted writes start with the
delete-by-handle sequence for the cached handle — the re-send is *not* made
without a preceding delete. -/
theorem claim_C9_counterexample :
    kittyContentChanged (some c9Prev) none c9Node = false
  ∧ kittyPositionChanged (some c9Prev) c9Node = true
  ∧ (kittyFlushStep none (some c9Prev) c9Node (some [0]) 2).1
      = [encodeKittyDelete 1, "\x1b[1;2H" ++ encodeKittyImage 1 [0] 1 1] := by
  refine ⟨by decide, by decide, by decide⟩

/-! ## Lemmas for the capability-response recognizers -/

theorem expectChars_cons_eq (c : Char) (cs l : List Char) (x : Char) :
    expectChars (c :: cs) (x :: l) = if x = c then expectChars cs l else none := rfl

theorem searchB_cons (f : List Char → Bool) (c : Char) (r : List Char) :
    searchB f (c :: r) = (f (c :: r) || searchB f r) := rfl

theorem decrpmAfterDigit_cons (c : Char) (l : List Char) :
    decrpmAfterDigit (c :: l) =
      (if c.isDigit then decrpmAfterDigit l
       else if c = ';' then
         match l with
         | c2 :: r2 => if c2.isDigit then decrpmAfterDigit r2 else false
         | [] => false
       else if c = '$' then
         match l with
         | c2 :: _ => decide (c2 = 'y')
         | [] => false
       else false) := by
  rw [decrpmAfterDigit.eq_def]

theorem decrpmAfterDigit_digits_append (a : List Char)
    (h : ∀ c ∈ a, c.isDigit = true) (r : List Char) :
    decrpmAfterDigit (a ++ r) = decrpmAfterDigit r := by
  induction a with
  | nil => rfl
  | cons c a ih =>
    rw [List.cons_append, decrpmAfterDigit_cons, if_pos (h c (by simp))]
    exact ih (fun x hx => h x (by simp [hx])) 

theorem decrpmAfterDigit_tail (b : List Char) (hb : b ≠ [])
    (hbd : ∀ c ∈ b, c.isDigit = true) :
    decrpmAfterDigit (';' :: (b ++ ['$', 'y'])) = true := by
  cases b with
  | nil => exact absurd rfl hb
  | cons c b' =>
    have hc : c.isDigit = true := hbd c (by simp)
    have hb' : ∀ x ∈ b', x.isDigit = true := fun x hx => hbd x (by simp [hx])
    rw [decrpmAfterDigit_cons,
        if_neg (by decide : ¬((';' : Char).isDigit = true)), if_pos rfl]
    rw [List.cons_append]
    show (if c.isDigit = true then decrpmAfterDigit (b' ++ ['$', 'y']) else false) = true
    rw [if_pos hc, decrpmAfterDigit_digits_append b' hb']
    decide

theorem decrpmAt_token (a b : List Char) (ha : a ≠ [])
    (had : ∀ c ∈ a, c.isDigit = true) (hb : b ≠ [])
    (hbd : ∀ c ∈ b, c.isDigit = true) :
    decrpmAt (escChar :: '[' :: '?' :: (a ++ (';' :: (b ++ ['$', 'y'])))) = true := by
  cases a with
  | nil => exact absurd rfl ha
  | cons c a' =>
    have hc : c.isDigit = true := had c (by simp)
    have ha' : ∀ x ∈ a', x.isDigit = true := fun x hx => had x (by simp [hx])
    have hexp : expectChars [escChar, '[', '?']
        (escChar :: '[' :: '?' :: ((c :: a') ++ (';' :: (b ++ ['$', 'y']))))
        = some ((c :: a') ++ (';' :: (b ++ ['$', 'y']))) := by
      rw [expectChars_cons_eq, if_pos rfl, expectChars_cons_eq, if_pos rfl,
          expectChars_cons_eq, if_pos rfl]
      rfl
    simp only [decrpmAt, hexp, List.cons_append]
    show (c.isDigit && decrpmAfterDigit (a' ++ (';' :: (b ++ ['$', 'y'])))) = true
    rw [hc, decrpmAfterDigit_digits_append a' ha',
        decrpmAfterDigit_tail b hb hbd]
    rfl

theorem ne_esc_of_isDigit {c : Char} (h : c.isDigit = true) : ¬ c = escChar := by
  intro he
  subst he
  exact absurd h (by decide)

theorem pixelResAt_of_ne_esc {c : Char} (h : ¬ c = escChar) (r : List Char) :
    pixelResAt (c :: r) = false := by
  have hexp : expectChars [escChar, '[', '4', ';'] (c :: r) = none := by
    rw [expectChars_cons_eq, if_neg h]
  simp only [pixelResAt, hexp]

theorem searchB_pixelResAt_false (l : List Char) (h : ∀ c ∈ l, ¬ c = escChar) :
    searchB pixelResAt l = false := by
  induction l with
  | nil => rfl
  | cons c r ih =>
    rw [searchB_cons, pixelResAt_of_ne_esc (h c (by simp)),
        ih (fun x hx => h x (by simp [hx]))]
    rfl

theorem isCapabilityResponse_decrpmToken (a b : List Char) (ha : a ≠ [])
    (had : ∀ c ∈ a, c.isDigit = true) (hb : b ≠ [])
    (hbd : ∀ c ∈ b, c.isDigit = true) :
    isCapabilityResponse (decrpmToken a b) = true := by
  have hl : (decrpmToken a b).toList
      = escChar :: '[' :: '?' :: (a ++ (';' :: (b ++ ['$', 'y']))) := rfl
  simp only [isCapabilityResponse, hl]
  rw [searchB_cons, decrpmAt_token a b ha had hb hbd]
  rfl

theorem isPixelResolutionResponse_decrpmToken (a b : List Char)
    (had : ∀ c ∈ a, c.isDigit = true) (hbd : ∀ c ∈ b, c.isDigit = true) :
    isPixelResolutionResponse (decrpmToken a b) = false := by
  have hl : (decrpmToken a b).toList
      = escChar :: '[' :: '?' :: (a ++ (';' :: (b ++ ['$', 'y']))) := rfl
  have hrest : ∀ c ∈ ('[' : Char) :: '?' :: (a ++ (';' :: (b ++ ['$', 'y']))),
      ¬ c = escChar := by
    intro c hc
    rcases List.mem_cons.mp hc with rfl | hc
    · decide
    rcases List.mem_cons.mp hc with rfl | hc
    · decide
    rcases List.mem_append.mp hc with hc | hc
    · exact ne_esc_of_isDigit (had c hc)
    rcases List.mem_cons.mp hc with rfl | hc
    · decide
    rcases List.mem_append.mp hc with hc | hc
    · exact ne_esc_of_isDigit (hbd c hc)
    rcases List.mem_cons.mp hc with rfl | hc
    · decide
    rcases List.mem_cons.mp hc with rfl | hc
    · decide
    · exact absurd hc (List.not_mem_nil c)
  have hhead : pixelResAt (escChar :: '[' :: '?' :: (a ++ (';' :: (b ++ ['$', 'y']))))
      = false := by
    have hexp : expectChars [escChar, '[', '4', ';']
        (escChar :: '[' :: '?' :: (a ++ (';' :: (b ++ ['$', 'y'])))) = none := by
      rw [expectChars_cons_eq, if_pos rfl, expectChars_cons_eq, if_pos rfl,
          expectChars_cons_eq, if_neg (by decide : ¬(('?' : Char) = '4'))]
    simp only [pixelResAt, hexp]
  simp only [isPixelResolutionResponse, hl]
  rw [searchB_cons, hhead, searchB_pixelResAt_false _ hrest]
  rfl

/-- C5 (confirmed).  Offering a complete DECRPM capability-response token
`ESC[?a;b$y` (nonempty digit runs `a`, `b`) to the input-handler chain makes
the capability handler claim it: the capabilities record is replaced, the
cached cell metrics are invalidated and a `capabilities` event is emitted —
and nothing else changes; in particular the chain stops there, so the token is
never forwarded to the focus handler or the key decoder (`keyDecoderSeen`
unchanged), and the pixel-resolution handler that runs first declines it. -/
theorem claim_C5 (a b : List Char) (ha : a ≠ []) (had : ∀ c ∈ a, c.isDigit = true)
    (hb : b ≠ []) (hbd : ∀ c ∈ b, c.isDigit = true) (st : InputState) :
    dispatchSequence st (decrpmToken a b)
      = { st with capabilitiesVersion := st.capabilitiesVersion + 1,
                  cellMetrics := none,
                  events := st.events ++ [.capabilities] } := by
  have hcap := isCapabilityResponse_decrpmToken a b ha had hb hbd
  have hpix := isPixelResolutionResponse_decrpmToken a b had hbd
  simp [dispatchSequence, inputHandlerChain, runHandlerChain,
    pixelResolutionHandler, capabilityHandler, hpix, hcap]

/-- Closed witness for C5 at the spec's example token `ESC[?1;2$y`, fed to the
freshly set-up input state: the capabilities record is updated, the
`capabilities` event fires, and the key decoder never sees the bytes. -/
theorem claim_C5_witness :
    dispatchSequence {} (decrpmToken ['1'] ['2'])
      = { capabilitiesVersion := 1, cellMetrics := none, resolution := none,
          waitingForPixelResolution := false, events := [.capabilities],
          keyDecoderSeen := [] } :=
  claim_C5 ['1'] ['2'] (by decide) (by decide) (by decide) (by decide) {}

/-! ## Lemmas for the priority dispatch -/

theorem runListener_invoked (beh : Nat → ListenerBehavior) (id : Nat)
    (ds : DispatchState) : (runListener beh id ds).invoked = ds.invoked ++ [id] := by
  simp only [runListener]
  split <;> rfl

theorem runListener_prevented (beh : Nat → ListenerBehavior) (id : Nat)
    (ds : DispatchState) :
    (runListener beh id ds).prevented = (ds.prevented || (beh id).prevents) := by
  simp only [runListener]
  split <;> simp_all

theorem runAll_invoked (beh : Nat → ListenerBehavior) (ids : List Nat) :
    ∀ ds : DispatchState, (runAll beh ids ds).invoked = ds.invoked ++ ids := by
  induction ids with
  | nil => intro ds; simp [runAll]
  | cons i ids ih =>
    intro ds
    show (runAll beh ids (runListener beh i ds)).invoked = ds.invoked ++ i :: ids
    rw [ih, runListener_invoked]
    simp

theorem runAll_prevented (beh : Nat → ListenerBehavior) (ids : List Nat) :
    ∀ ds : DispatchState, (runAll beh ids ds).prevented
      = (ds.prevented || ids.any fun i => (beh i).prevents) := by
  induction ids with
  | nil => intro ds; simp [runAll]
  | cons i ids ih =>
    intro ds
    show (runAll beh ids (runListener beh i ds)).prevented = _
    rw [ih, runListener_prevented]
    simp [Bool.or_assoc]

/-- C6 (amended).  In `emitWithPriority`: (1) the listeners invoked are
exactly all global listeners in registration order followed — unless some
listener set `defaultPrevented` during the global phase or the target set is
empty after it — by the target-scoped set *as it stands after the global
phase* (the snapshot is taken between the two phases, not before dispatch);
(2) if any global listener prevents, no target-scoped listener is invoked;
(3) a listener that is not in the post-global-phase target set and is not a
global listener is never invoked — so one added by a *target-scoped* listener
during the same dispatch does not receive the event, while one added by a
*global* listener does (it is in the post-global-phase set; see the
counterexample). -/
theorem claim_C6 (beh : Nat → ListenerBehavior) (globals : List Nat)
    (ds0 : DispatchState) :
    ((emitWithPriority beh globals ds0).invoked
      = ds0.invoked ++ globals ++
        (if (runAll beh globals ds0).prevented = true
            ∨ (runAll beh globals ds0).targets = []
         then [] else (runAll beh globals ds0).targets))
  ∧ ((∃ g ∈ globals, (beh g).prevents = true) →
      (emitWithPriority beh globals ds0).invoked = ds0.invoked ++ globals)
  ∧ (∀ t, t ∉ (runAll beh globals ds0).targets → t ∉ globals → t ∉ ds0.invoked →
      t ∉ (emitWithPriority beh globals ds0).invoked) := by
  have h1 : (emitWithPriority beh globals ds0).invoked
      = ds0.invoked ++ globals ++
        (if (runAll beh globals ds0).prevented = true
            ∨ (runAll beh globals ds0).targets = []
         then [] else (runAll beh globals ds0).targets) := by
    simp only [emitWithPriority]
    by_cases he : (runAll beh globals ds0).targets = []
    · simp [he, runAll_invoked]
    · by_cases hp : (runAll beh globals ds0).prevented = true
      · simp [he, hp, runAll_invoked]
      · simp [he, hp, runAll_invoked, List.append_assoc]
  refine ⟨h1, ?_, ?_⟩
  · rintro ⟨g, hg, hgp⟩
    have hp : (runAll beh globals ds0).prevented = true := by
      rw [runAll_prevented]
      have : globals.any (fun i => (beh i).prevents) = true :=
        List.any_eq_true.mpr ⟨g, hg, hgp⟩
      simp [this]
    rw [h1, if_pos (Or.inl hp), List.append_nil]
  · intro t ht hg hi
    rw [h1]
    simp only [List.mem_append]
    rintro ((h | h) | h)
    · exact hi h
    · exact hg h
    · revert h
      split
      · exact fun h => absurd h (List.not_mem_nil t)
      · exact fun h => ht h

/-- The dispatch environment refuting the frozen C6: global listener 0
registers target-scoped listener 1 during the dispatch. -/
def behC6 : Nat → ListenerBehavior :=
  fun n => if n = 0 then { prevents := false, adds := [1] } else {}

/-- Counterexample to C6 as stated: listener 1 is target-scoped, not
registered before dispatch (the initial target set is empty), added as a side
effect of the same in-flight dispatch by global listener 0 — and it *does*
receive the event, because the snapshot is taken after the global phase. -/
theorem claim_C6_counterexample :
    ({} : DispatchState).targets = []
  ∧ 1 ∈ (emitWithPriority behC6 [0] {}).invoked := by
  refine ⟨rfl, by decide⟩

/-- The dispatch environment for the C6 witness: the sole global listener
prevents the event (and registers a target listener, which must then not
run). -/
def behC6w : Nat → ListenerBehavior :=
  fun n => if n = 0 then { prevents := true, adds := [1] } else {}

/-- Closed witness for C6: with a preventing global listener, only the global
listener is invoked. -/
theorem claim_C6_witness :
    (emitWithPriority behC6w [0] {}).invoked = ({} : DispatchState).invoked ++ [0] :=
  (claim_C6 behC6w [0] {}).2.1 ⟨0, by decide, by decide⟩

/-- C7 (confirmed).  If renderable `A` is captured and a mouse `up` arrives
while the pointer hit-tests to renderable `B` (and no text selection is in
progress — an active selection takes the `up` first), then, in order, `A`
receives the synthesized `drag-end` and then the plain `up`, `B` receives a
`drop` whose `source` is `A` (and, falling through the dispatch tail, the
plain `up`), afterwards no renderable is captured, and exactly one extra
render is requested. -/
theorem claim_C7 (startsSel : Nat → Bool) (prevents : Nat → MouseEventType → Bool)
    (st : MouseDispatchState) (ev : RawMouseEvent) (A B : Nat)
    (hcap : st.capturedRenderable = some A) (hsel : st.isSelecting = false)
    (het : ev.etype = .up) :
    dispatchMouse startsSel prevents st ev B (some B)
      = { st with
          capturedRenderable := none,
          lastOverRenderable := some A,
          lastOverRenderableNum := A,
          delivered := st.delivered ++
            [{ target := A, etype := .dragEnd }, { target := A, etype := .up },
             { target := B, etype := .drop, source := some A },
             { target := B, etype := .up }],
          renderRequests := st.renderRequests + 1 } := by
  obtain ⟨et, btn, x, y, ctrl⟩ := ev
  simp only at het
  subst het
  simp [dispatchMouse, mouseFinalize, hcap, hsel]

/-- Closed witness for C7: renderable 1 captured, `up` over renderable 2. -/
theorem claim_C7_witness :
    dispatchMouse (fun _ => false) (fun _ _ => false)
        { capturedRenderable := some 1 }
        { etype := .up, button := 0, x := 0, y := 0, ctrl := false } 2 (some 2)
      = { capturedRenderable := none,
          lastOverRenderable := some 1,
          lastOverRenderableNum := 1,
          hasSelection := false,
          isSelecting := false,
          delivered :=
            [{ target := 1, etype := .dragEnd }, { target := 1, etype := .up },
             { target := 2, etype := .drop, source := some 1 },
             { target := 2, etype := .up }],
          renderRequests := 1 } :=
  claim_C7 (fun _ => false) (fun _ _ => false) { capturedRenderable := some 1 }
    { etype := .up, button := 0, x := 0, y := 0, ctrl := false } 1 2 rfl rfl rfl

end OpenTUI
